import Mathlib

/-!
Verification of the conditional order lifecycle engine (backend/engine/*).

Shallow embedding of the trade data model, the rule evaluators
(stop-loss, take-profit, trailing-stop), the resilience primitives
(CircuitBreaker, ErrorHandler.execute_with_retry), the persisted trade
store with TradeManager.mark_trade_closed and
TradeManager._evaluate_entry_conditions, and the
OrderExecutor.on_order_status fill dispatch handler.

Modelling conventions:
- Python floats are embedded as rationals (ℚ); prices, quantities and
  wall-clock times are rationals.
- Python dict trades are embedded as a structure of Option-valued
  fields; an absent key is `none`.
- `trade.get('trailing_stop_rules', [{}])[0]` yields either Python
  `None`, an empty dict (the default, falsy) or a rule dict; this
  three-way distinction is kept in `RuleSlot`.
- Fallible code (indicator functions raising ValueError or
  ZeroDivisionError, both caught by the callers) returns `Except`.
- I/O (broker calls, logging) has no data effect on the embedded state;
  broker outcomes are passed as explicit oracle parameters at the call
  sites that consume them.
-/

namespace TradeEngine

/-- Moving-average configuration dict (`ma_config` with keys `type`, `length`). -/
structure MaConfig where
  type : Option String := none
  length : Option Nat := none
deriving Repr, DecidableEq

/-- A trailing-stop rule dict: `indicator` plus a `parameters` sub-dict
(`lookback`, `offset`, `ma_config`, `atr_period`, `atr_multiplier`),
flattened here. -/
structure TrailingRule where
  indicator : Option String := none
  lookback : Option Nat := none
  offset : Option ℚ := none
  ma_config : Option MaConfig := none
  atr_period : Option Nat := none
  atr_multiplier : Option ℚ := none
deriving Repr, DecidableEq

/-- The value of `trade.get('trailing_stop_rules', [{}])[0]`: Python `None`,
the empty-dict default `{}` (falsy but not None), or an actual rule dict. -/
inductive RuleSlot where
  | noneVal
  | emptyDict
  | rule (r : TrailingRule)
deriving Repr, DecidableEq

/-- Python `x is not None` on a rule slot. -/
def RuleSlot.isNotNone : RuleSlot → Bool
  | .noneVal => false
  | _ => true

/-- Python truthiness of a rule slot (`if not trailing_rule` fails only on a
non-empty dict); a truthy slot carries the rule. -/
def RuleSlot.truthy : RuleSlot → Option TrailingRule
  | .rule r => some r
  | _ => none

/-- One take-profit rule dict (`value`, `condition`); `value` models a present,
parseable numeric value, `none` a missing or unparseable one. -/
structure TPRule where
  value : Option ℚ := none
  condition : Option String := none
deriving Repr, DecidableEq

/-- The `active_stop` diagnostic dict written back onto the trade by
StopLossEvaluator.should_trigger_stop. -/
structure ActiveStop where
  type : String
  price : ℚ
  static_stop : Option ℚ := none
  dynamic_stop : Option ℚ := none
deriving Repr, DecidableEq

/-- The persisted trade record (one JSON object per symbol); only the fields
read or written by the embedded code paths are modelled. -/
structure Trade where
  symbol : String
  direction : Option String := none
  order_status : Option String := none
  trade_status : Option String := none
  executed_price : Option ℚ := none
  exit_price : Option ℚ := none
  exit_qty : Option ℚ := none
  realized_pnl : Option ℚ := none
  filled_qty : Option ℚ := none
  calculated_quantity : Option ℚ := none
  initial_stop_price : Option ℚ := none
  current_trailing_stop : Option ℚ := none
  active_stop : Option ActiveStop := none
  trailing_rule0 : RuleSlot := .emptyDict
  take_profit_rules : List TPRule := []
deriving Repr, DecidableEq

/-- `trade.get("direction", "Long")`. -/
def Trade.dir (t : Trade) : String := t.direction.getD "Long"

/-! ## Indicators (backend/engine/indicators.py)

`calculate_sma` and `calculate_ema` raise ValueError when the price list is
shorter than the period, and ZeroDivisionError on a zero period; both are
embedded as `Except.error` since every caller catches them. -/

/-- indicators.calculate_sma: mean of the last `length` prices. -/
def calculate_sma (prices : List ℚ) (length : Nat) : Except String ℚ :=
  if prices.length < length then
    Except.error "Not enough prices to calculate SMA"
  else if length = 0 then
    Except.error "ZeroDivisionError"
  else
    Except.ok ((prices.drop (prices.length - length)).sum / (length : ℚ))

/-- indicators.calculate_ema: SMA of the first `length` prices as seed, then
the exponential update over the remaining prices. -/
def calculate_ema (prices : List ℚ) (length : Nat) : Except String ℚ :=
  if prices.length < length then
    Except.error "Not enough prices to calculate EMA"
  else if length = 0 then
    Except.error "ZeroDivisionError"
  else
    let k : ℚ := 2 / ((length : ℚ) + 1)
    let seed : ℚ := (prices.take length).sum / (length : ℚ)
    Except.ok ((prices.drop length).foldl (fun ema price => price * k + ema * (1 - k)) seed)

/-- indicators.calculate_moving_average: dispatch on the (lower-cased) type. -/
def calculate_moving_average (prices : List ℚ) (ma_type : String) (length : Nat) :
    Except String ℚ :=
  if ma_type.toLower = "sma" then calculate_sma prices length
  else if ma_type.toLower = "ema" then calculate_ema prices length
  else Except.error "Unsupported moving average type"

/-- indicators.get_moving_average_value: read `type`/`length` from the config
with defaults `sma`/20. -/
def get_moving_average_value (prices : List ℚ) (cfg : MaConfig) : Except String ℚ :=
  calculate_moving_average prices (cfg.type.getD "sma") (cfg.length.getD 20)

/-! ## TrailingStopEvaluator (backend/engine/trailing_stop_evaluator.py) -/

/-- TrailingStopEvaluator._calculate_trailing_stop: candidate stop from the
configured indicator over the rolling window, minus the offset; `none` when
the rule is falsy, the indicator unsupported, or the computation raises
(the exception is caught and None returned). -/
def calculate_trailing_stop (t : Trade) (windowPrices : List ℚ) : Option ℚ :=
  match t.trailing_rule0.truthy with
  | none => none
  | some rule =>
    let lookback := rule.lookback.getD 20
    let offset := rule.offset.getD 0
    match rule.indicator with
    | some "ema" =>
      match calculate_ema windowPrices lookback with
      | .ok v => some (v - offset)
      | .error _ => none
    | some "sma" =>
      match calculate_sma windowPrices lookback with
      | .ok v => some (v - offset)
      | .error _ => none
    | some "custom_ma" =>
      let cfg := rule.ma_config.getD { type := some "sma", length := some lookback }
      match get_moving_average_value windowPrices cfg with
      | .ok v => some (v - offset)
      | .error _ => none
    | some "atr" =>
      let period := rule.atr_period.getD 14
      let mult := rule.atr_multiplier.getD 2
      if windowPrices.length ≥ period ∧ period ≠ 0 then
        let high_low := (List.zip (windowPrices.drop 1) windowPrices).map
          (fun p => |p.1 - p.2|)
        let atr := (high_low.drop (high_low.length - period)).sum / (period : ℚ)
        some (windowPrices.getLastD 0 - atr * mult)
      else none
    | _ => none

/-- TrailingStopEvaluator._should_update_stop: a missing current stop is always
replaced; otherwise replace only strictly upward for Long, strictly downward
for Short, never for an unknown direction. -/
def should_update_stop (t : Trade) (currentStop : Option ℚ) (newStop : ℚ) : Bool :=
  match currentStop with
  | none => true
  | some c =>
    if t.dir = "Long" then decide (newStop > c)
    else if t.dir = "Short" then decide (newStop < c)
    else false

/-- TrailingStopEvaluator.should_update_trailing_stop: returns the update
decision together with the freshly computed candidate (the
`new_trailing_stop` entry of the details dict, present whenever the
calculation succeeded). The rolling-window argument is `none` for Python
`None`; an empty window is falsy and also reports insufficient data. -/
def should_update_trailing_stop (t : Trade) (_currentPrice : ℚ)
    (w : Option (List ℚ)) : Bool × Option ℚ :=
  match t.trailing_rule0.truthy with
  | none => (false, none)
  | some rule =>
    let lookback := rule.lookback.getD 20
    match w with
    | none => (false, none)
    | some win =>
      if win.length = 0 ∨ win.length < lookback then (false, none)
      else
        match calculate_trailing_stop t win with
        | none => (false, none)
        | some ns => (should_update_stop t t.current_trailing_stop ns, some ns)

/-- TrailingStopEvaluator.update_trailing_stop: store the new stop on the trade. -/
def update_trailing_stop (t : Trade) (newStop : ℚ) : Trade :=
  { t with current_trailing_stop := some newStop }

/-- TrailingStopEvaluator.should_trigger_trailing_stop: compare the tick price
against the stored `current_trailing_stop`; the second component is the stop
value the decision was made against (from the details dict). -/
def should_trigger_trailing_stop (t : Trade) (currentPrice : ℚ) : Bool × Option ℚ :=
  match t.current_trailing_stop with
  | none => (false, none)
  | some cts =>
    if t.dir = "Long" then (decide (currentPrice ≤ cts), some cts)
    else if t.dir = "Short" then (decide (currentPrice ≥ cts), some cts)
    else (false, none)

/-- TrailingStopEvaluator.is_trailing_stop_active: rule slot not None and a
stored current trailing stop. -/
def is_trailing_stop_active (t : Trade) : Bool :=
  t.trailing_rule0.isNotNone && t.current_trailing_stop.isSome

/-- TradeManager._evaluate_child_orders step 3 (trade_manager.py lines
859-871): possibly update the ratchet, then evaluate the trigger on the
resulting trade. Returns the trade after the pass, the trigger decision, and
the stop value the trigger was compared against. -/
def evaluate_trailing_stop_step (t : Trade) (price : ℚ) (w : Option (List ℚ)) :
    Trade × Bool × Option ℚ :=
  if is_trailing_stop_active t then
    let su := should_update_trailing_stop t price w
    let t1 := match su.1, su.2 with
      | true, some ns => update_trailing_stop t ns
      | _, _ => t
    let trig := should_trigger_trailing_stop t1 price
    (t1, trig.1, trig.2)
  else (t, false, none)

/-- Ratchet step as wired in _evaluate_child_orders, abstracted over the
freshly computed candidate stop: apply `_should_update_stop` to the stored
value and replace it only on a positive decision. -/
def ratchet_step (t : Trade) (candidate : ℚ) : Trade :=
  if should_update_stop t t.current_trailing_stop candidate then
    update_trailing_stop t candidate
  else t

/-- Stored `current_trailing_stop` values after each candidate of a sequence. -/
def ratchet_states (t : Trade) : List ℚ → List (Option ℚ)
  | [] => []
  | c :: cs =>
    let t1 := ratchet_step t c
    t1.current_trailing_stop :: ratchet_states t1 cs

/-! ## StopLossEvaluator (backend/engine/stop_loss_evaluator.py) -/

/-- StopLossEvaluator._calculate_dynamic_stop: like the trailing candidate but
with no `atr` branch, and with the insufficient-window check inside. -/
def calculate_dynamic_stop (t : Trade) (w : Option (List ℚ)) : Option ℚ :=
  match t.trailing_rule0.truthy with
  | none => none
  | some rule =>
    let lookback := rule.lookback.getD 20
    let offset := rule.offset.getD 0
    match w with
    | none => none
    | some win =>
      if win.length = 0 ∨ win.length < lookback then none
      else
        match rule.indicator with
        | some "ema" =>
          match calculate_ema win lookback with
          | .ok v => some (v - offset)
          | .error _ => none
        | some "sma" =>
          match calculate_sma win lookback with
          | .ok v => some (v - offset)
          | .error _ => none
        | some "custom_ma" =>
          let cfg := rule.ma_config.getD { type := some "sma", length := some lookback }
          match get_moving_average_value win cfg with
          | .ok v => some (v - offset)
          | .error _ => none
        | _ => none

/-- StopLossEvaluator._determine_active_stop: the sole stop when only one
exists; when both exist, max for Long and min otherwise. -/
def determine_active_stop (t : Trade) (staticStop dynamicStop : Option ℚ) :
    Option ℚ :=
  match staticStop, dynamicStop with
  | some s, none => some s
  | none, some d => some d
  | some s, some d =>
    if t.dir = "Long" then some (max s d) else some (min s d)
  | none, none => none

/-- StopLossEvaluator._evaluate_stop_trigger: price at or through the active
stop against the trade direction. -/
def evaluate_stop_trigger (t : Trade) (price : ℚ) (activeStop : Option ℚ) : Bool :=
  match activeStop with
  | none => false
  | some s =>
    if t.dir = "Long" then decide (price ≤ s)
    else if t.dir = "Short" then decide (price ≥ s)
    else false

/-- StopLossEvaluator.should_trigger_stop: compute the dynamic stop when a
truthy trailing rule exists, select the active stop, write the `active_stop`
diagnostic back onto the trade, and evaluate the trigger. Returns
(triggered, active stop, trade with diagnostic). -/
def should_trigger_stop (t : Trade) (price : ℚ) (w : Option (List ℚ)) :
    Bool × Option ℚ × Trade :=
  let staticStop := t.initial_stop_price
  let dynamicStop :=
    if (t.trailing_rule0.truthy).isSome then calculate_dynamic_stop t w else none
  let activeStop := determine_active_stop t staticStop dynamicStop
  let t1 :=
    match activeStop with
    | some a =>
      let diag : ActiveStop :=
        { type := if dynamicStop.isSome then "dynamic" else "static"
          price := a
          static_stop := staticStop
          dynamic_stop := dynamicStop }
      { t with active_stop := some diag }
    | none => t
  (evaluate_stop_trigger t1 price activeStop, activeStop, t1)

/-! ## TakeProfitEvaluator (backend/engine/take_profit_evaluator.py) -/

/-- TakeProfitEvaluator.should_trigger_take_profit: evaluates only
`take_profit_rules[0]`; returns the trigger decision and the target price
reported in the details dict (none when no rules or no parseable value). -/
def should_trigger_take_profit (t : Trade) (currentPrice : ℚ) : Bool × Option ℚ :=
  match t.take_profit_rules.head? with
  | none => (false, none)
  | some rule =>
    match rule.value with
    | none => (false, none)
    | some target =>
      let cond := rule.condition.getD ">="
      let triggered :=
        if t.dir = "Long" then
          (cond = ">=" && decide (currentPrice ≥ target)) ||
          (cond = ">" && decide (currentPrice > target))
        else if t.dir = "Short" then
          (cond = "<=" && decide (currentPrice ≤ target)) ||
          (cond = "<" && decide (currentPrice < target))
        else false
      (triggered, some target)

/-- The list of targets the code reports as triggered for one evaluation: at
most the first rule's target (the details dict of should_trigger_take_profit
names a single target). -/
def code_triggered_targets (t : Trade) (currentPrice : ℚ) : List ℚ :=
  match should_trigger_take_profit t currentPrice with
  | (true, some v) => [v]
  | _ => []

/-- Modelled from the spec (§4.2 TakeProfitEvaluator): "supports one or more
price targets ... returns the set of triggered targets sorted primary-first".
All rule targets crossed by the price, in rule order (primary first). -/
def spec_triggered_targets (t : Trade) (currentPrice : ℚ) : List ℚ :=
  (t.take_profit_rules.filterMap (fun r => r.value)).filter
    (fun target =>
      if t.dir = "Long" then decide (currentPrice ≥ target)
      else decide (currentPrice ≤ target))

/-! ## CircuitBreaker (backend/engine/trade_manager.py lines 85-125)

Wall-clock time (`time.time()`) is passed explicitly to the operations that
read it. -/

/-- CircuitBreaker state: threshold/timeout configuration plus mutable
failure count, last failure time and state string. -/
structure CircuitBreaker where
  failure_threshold : Nat := 5
  recovery_timeout : ℚ := 60
  failure_count : Nat := 0
  last_failure_time : Option ℚ := none
  state : String := "CLOSED"
deriving Repr, DecidableEq

/-- CircuitBreaker.record_failure at wall-clock `now`: increment the count,
stamp the failure time, and open the circuit once the threshold is reached. -/
def record_failure (cb : CircuitBreaker) (now : ℚ) : CircuitBreaker :=
  let cb1 := { cb with
    failure_count := cb.failure_count + 1
    last_failure_time := some now }
  if cb1.failure_count ≥ cb1.failure_threshold then { cb1 with state := "OPEN" }
  else cb1

/-- CircuitBreaker.record_success: reset the count; close the circuit only
from HALF_OPEN. -/
def record_success (cb : CircuitBreaker) : CircuitBreaker :=
  let cb1 := { cb with failure_count := 0 }
  if cb1.state = "HALF_OPEN" then { cb1 with state := "CLOSED" } else cb1

/-- CircuitBreaker.can_execute at wall-clock `now`: CLOSED and HALF_OPEN pass;
OPEN passes (and moves to HALF_OPEN) only once more than `recovery_timeout`
has elapsed since a truthy `last_failure_time` (Python `if
self.last_failure_time and ...`: a time of 0.0 is falsy). Returns the
decision and the possibly-updated breaker. -/
def can_execute (cb : CircuitBreaker) (now : ℚ) : Bool × CircuitBreaker :=
  if cb.state = "CLOSED" then (true, cb)
  else if cb.state = "OPEN" then
    match cb.last_failure_time with
    | some lft =>
      if lft ≠ 0 ∧ now - lft > cb.recovery_timeout then
        (true, { cb with state := "HALF_OPEN" })
      else (false, cb)
    | none => (false, cb)
  else (true, cb)

/-! ## Persisted trade store (TradeManager file helpers) -/

/-- The persisted trade set: the JSON array in saved_trades.json. -/
abbrev TradeStore := List Trade

/-- TradeManager._get_fresh_trade_config: first trade whose symbol matches. -/
def get_fresh_trade_config (store : TradeStore) (symbol : String) : Option Trade :=
  store.find? (fun t => t.symbol == symbol)

/-- Replace the first trade whose symbol matches (the loop body of
_update_trade_in_file). -/
def replace_first_trade (store : TradeStore) (symbol : String) (updated : Trade) :
    TradeStore :=
  match store with
  | [] => []
  | t :: rest =>
    if t.symbol == symbol then updated :: rest
    else t :: replace_first_trade rest symbol updated

/-- TradeManager._update_trade_in_file: atomically rewrite the store with the
first matching trade replaced; an unmatched symbol leaves the file untouched
(the write is skipped). -/
def update_trade_in_file (store : TradeStore) (symbol : String) (updated : Trade) :
    TradeStore :=
  if store.any (fun t => t.symbol == symbol) then
    replace_first_trade store symbol updated
  else store

/-- TradeManager.mark_trade_closed, trade-level part: set terminal statuses and
exit facts; record realized P&L from the stored executed_price only when that
entry price is positive (`if entry_price > 0`). -/
def mark_trade_closed_trade (t : Trade) (exit_price exit_qty : ℚ) : Trade :=
  let t1 := { t with
    order_status := some "Inactive"
    trade_status := some "Closed"
    exit_price := some exit_price
    exit_qty := some exit_qty }
  let entry := t1.executed_price.getD 0
  if entry > 0 then
    let pnl :=
      if t1.dir = "Long" then (exit_price - entry) * exit_qty
      else (entry - exit_price) * exit_qty
    { t1 with realized_pnl := some pnl }
  else t1

/-- TradeManager.mark_trade_closed: re-read the fresh trade for the symbol,
update it, and persist immediately via _update_trade_in_file; a missing
symbol leaves the store unchanged. -/
def mark_trade_closed (store : TradeStore) (symbol : String)
    (exit_price exit_qty : ℚ) : TradeStore :=
  match get_fresh_trade_config store symbol with
  | none => store
  | some t =>
    update_trade_in_file store symbol (mark_trade_closed_trade t exit_price exit_qty)

/-! ## ErrorHandler.execute_with_retry (trade_manager.py lines 34-74)

The wrapped operation is a function of the attempt index returning either a
result or a raised exception message; the wrapper retries up to
`max_retries` additional times and returns `none` (Python None) once all
attempts failed — it never propagates the exception. -/

/-- Retry loop: attempt `attempt`, with `remaining` further attempts allowed. -/
def execute_with_retry_go {α : Type} (op : Nat → Except String α) :
    Nat → Nat → Option α
  | attempt, remaining =>
    match op attempt with
    | .ok a => some a
    | .error _ =>
      match remaining with
      | 0 => none
      | r + 1 => execute_with_retry_go op (attempt + 1) r

/-- ErrorHandler.execute_with_retry with `max_retries` retries: up to
`max_retries + 1` attempts in total. -/
def execute_with_retry {α : Type} (max_retries : Nat) (op : Nat → Except String α) :
    Option α :=
  execute_with_retry_go op 0 max_retries

/-! ## Python call binding for the executor call sites

The wiring bug claims are about CPython's keyword-argument binding: a call
with a keyword that names no parameter, or that leaves a parameter without a
default unbound, raises TypeError before the callee body runs. The two
OrderExecutor methods' signatures and the keyword lists actually written at
the TradeManager call sites are embedded as data. -/

/-- One parameter of a Python signature: its name and whether it has a
default value. -/
structure PyParam where
  name : String
  hasDefault : Bool
deriving Repr, DecidableEq

/-- Result of binding a call's arguments against a signature. -/
inductive CallCheck where
  | ok
  | typeError (msg : String)
deriving Repr, DecidableEq

/-- CPython keyword binding for a call with keyword arguments only (after
`self`): every keyword must name a parameter, and every parameter without a
default must receive a keyword. -/
def bind_kwargs (params : List PyParam) (kwargs : List String) : CallCheck :=
  if kwargs.any (fun k => !(params.any (fun p => p.name == k))) then
    .typeError "unexpected keyword argument"
  else if params.any (fun p => !p.hasDefault && !(kwargs.contains p.name)) then
    .typeError "missing required argument"
  else .ok

/-- Signature of OrderExecutor.place_market_order
(order_executor.py line 50): (contract_or_symbol, quantity, trade=None,
what_if=True). -/
def place_market_order_params : List PyParam :=
  [⟨"contract_or_symbol", false⟩, ⟨"quantity", false⟩,
   ⟨"trade", true⟩, ⟨"what_if", true⟩]

/-- Signature of OrderExecutor.submit_exit_order (order_executor.py line 90):
(symbol, quantity, price, trade=None). -/
def submit_exit_order_params : List PyParam :=
  [⟨"symbol", false⟩, ⟨"quantity", false⟩, ⟨"price", false⟩, ⟨"trade", true⟩]

/-- Keywords written at the entry call site
(TradeManager._evaluate_entry_conditions, trade_manager.py lines 808-813). -/
def entry_call_kwargs : List String := ["symbol", "qty", "side", "trade"]

/-- Keywords written at the exit call sites (_execute_stop_loss,
_execute_take_profit, _execute_trailing_stop; e.g. trade_manager.py lines
879-884). -/
def exit_call_kwargs : List String := ["symbol", "qty", "side", "trade"]

/-! ## OrderExecutor.place_market_order (order_executor.py lines 50-88)

Broker interactions (contract lookup, placeOrder) are abstracted as an
oracle for the failure mode; the body never writes any key of the trade
dict, which the embedding reflects by returning the trade unchanged. -/

/-- Failure modes of place_market_order's body. -/
inductive PMOFailure where
  | contractMissing
  | timeoutError
  | otherException
deriving Repr, DecidableEq

/-- OrderExecutor.place_market_order: `none` on any failure (missing contract,
timeout, or any caught exception), `some` result otherwise; the trade passes
through unmodified. -/
def place_market_order (failure : Option PMOFailure) (t : Option Trade) :
    Option String × Option Trade :=
  match failure with
  | some _ => (none, t)
  | none => (some "trade_result", t)

/-! ## TradeManager._evaluate_entry_conditions (trade_manager.py lines 755-830)

The entry-evaluator verdict and the portfolio gate are passed as booleans
(the claims quantify over "entry conditions trigger"); the executor call's
outcome is an oracle: a result, a falsy result (None), or a raised
exception. A raised exception propagates out of the method (there is no
try/except inside it), so the final `save_trades()` is not reached and the
already-persisted submitted status is not reverted. `self.save_trades()`
writes the in-memory trade set, whose entry for this symbol is the very
trade object mutated here, so it is modelled as a second
update_trade_in_file with the final trade. -/

/-- Outcome of the `place_market_order` call as seen by the caller. -/
inductive PlacementResult where
  | ok
  | noResult
  | raises
deriving Repr, DecidableEq

/-- Result of one _evaluate_entry_conditions call: the trade object after the
call, the persisted store, how many placement calls were made inside the
call, and whether an exception escaped it. -/
structure EntryEvalOutcome where
  trade : Trade
  store : TradeStore
  placements : Nat
  raised : Bool
deriving Repr, DecidableEq

/-- TradeManager._evaluate_entry_conditions. -/
def evaluate_entry_conditions (portfolioBlocked : Bool) (entryTriggered : Bool)
    (hasExecutor : Bool) (placement : PlacementResult)
    (store : TradeStore) (t : Trade) : EntryEvalOutcome :=
  if t.trade_status = some "Filled" then ⟨t, store, 0, false⟩
  else if portfolioBlocked then ⟨t, store, 0, false⟩
  else if !entryTriggered then ⟨t, store, 0, false⟩
  else
    let oldStatus := t.order_status.getD "Working"
    let t1 := { t with order_status := some "Entry Order Submitted" }
    let store1 := update_trade_in_file store t1.symbol t1
    if hasExecutor then
      match placement with
      | .raises => ⟨t1, store1, 1, true⟩
      | .ok => ⟨t1, update_trade_in_file store1 t1.symbol t1, 1, false⟩
      | .noResult =>
        let t2 := { t1 with order_status := some oldStatus }
        ⟨t2, update_trade_in_file store1 t2.symbol t2, 1, false⟩
    else ⟨t1, update_trade_in_file store1 t1.symbol t1, 0, false⟩

/-! ## OrderExecutor.on_order_status (order_executor.py lines 17-48)

The handler's state is the broker-id → trade-data map (`active_orders`;
each entry's `trade` value may be Python None) plus whether a trade manager
is wired. Scheduling `mark_trade_closed` / `mark_trade_filled` is recorded
as an emitted route call; an exception raised inside the try block at the
scheduling point is modelled by the `routeRaises` oracle and is caught by
the handler's except clause (third component of the result). -/

/-- A fill routed to the orchestrator. -/
inductive RouteCall where
  | markClosed (symbol : String) (price qty : ℚ)
  | markFilled (symbol : String) (price qty : ℚ)
deriving Repr, DecidableEq

/-- An orderStatusEvent callback's arguments (the ones the handler reads). -/
structure FillEvent where
  orderId : Nat
  status : String
  avgFillPrice : ℚ
  filled : ℚ
deriving Repr, DecidableEq

/-- OrderExecutor state: the active_orders map and the trade-manager wiring. -/
structure OrderExecState where
  active_orders : List (Nat × Option Trade)
  has_trade_manager : Bool
deriving Repr, DecidableEq

/-- Dict lookup `self.active_orders.get(order.orderId)`. -/
def lookup_order (m : List (Nat × Option Trade)) (k : Nat) : Option (Option Trade) :=
  (m.find? (fun p => p.1 == k)).map Prod.snd

/-- Dict deletion `del self.active_orders[order.orderId]` (keys are unique). -/
def remove_order (m : List (Nat × Option Trade)) (k : Nat) :
    List (Nat × Option Trade) :=
  m.filter (fun p => p.1 != k)

/-- OrderExecutor.on_order_status: returns the new executor state, the route
scheduled to the trade manager (if any), and whether an exception was caught
by the handler's except clause. Untracked order ids are dropped with no
state change; statuses other than Filled/Cancelled leave everything
untouched; a tracked terminal status removes the map entry and, when a trade
and a trade manager are present, routes to mark_trade_closed exactly when
the trade's order_status is "Contingent Order Submitted" and to
mark_trade_filled otherwise. -/
def on_order_status (routeRaises : Bool) (st : OrderExecState) (ev : FillEvent) :
    OrderExecState × Option RouteCall × Bool :=
  match lookup_order st.active_orders ev.orderId with
  | none => (st, none, false)
  | some tradeOpt =>
    if ev.status = "Filled" ∨ ev.status = "Cancelled" then
      match tradeOpt with
      | some trade =>
        if st.has_trade_manager then
          if routeRaises then (st, none, true)
          else
            let r :=
              if trade.order_status = some "Contingent Order Submitted" then
                RouteCall.markClosed trade.symbol ev.avgFillPrice ev.filled
              else
                RouteCall.markFilled trade.symbol ev.avgFillPrice ev.filled
            ({ st with active_orders := remove_order st.active_orders ev.orderId },
             some r, false)
        else
          ({ st with active_orders := remove_order st.active_orders ev.orderId },
           none, false)
      | none =>
        ({ st with active_orders := remove_order st.active_orders ev.orderId },
         none, false)
    else (st, none, false)

/-! ## Concrete fixtures used by witnesses and counterexamples -/

/-- A Long trade with a trailing-stop rule and no stored ratchet value yet. -/
def ratchetTrade : Trade :=
  { symbol := "AAPL"
    direction := some "Long"
    trailing_rule0 := .rule { indicator := some "sma", lookback := some 2 } }

/-- A Long trade with both a static initial stop (95) and an SMA trailing rule
whose dynamic stop computes to 98 on the window [98]. -/
def longStopTrade : Trade :=
  { symbol := "AAPL"
    direction := some "Long"
    initial_stop_price := some 95
    trailing_rule0 := .rule { indicator := some "sma", lookback := some 1, offset := some 0 } }

/-- A Short trade with static stop 105 and an SMA rule computing 102 on [102]. -/
def shortStopTrade : Trade :=
  { symbol := "AAPL"
    direction := some "Short"
    initial_stop_price := some 105
    trailing_rule0 := .rule { indicator := some "sma", lookback := some 1, offset := some 0 } }

/-- A filled Long trade with an active trailing stop stored at 90 and an SMA(2)
trailing rule. -/
def trailingPassTrade : Trade :=
  { symbol := "AAPL"
    direction := some "Long"
    trade_status := some "Filled"
    current_trailing_stop := some 90
    trailing_rule0 := .rule { indicator := some "sma", lookback := some 2, offset := some 0 } }

/-- A Long trade with two take-profit targets, primary 160 then 165. -/
def twoTargetTrade : Trade :=
  { symbol := "AAPL"
    direction := some "Long"
    take_profit_rules := [{ value := some 160, condition := some ">=" },
                          { value := some 165, condition := some ">=" }] }

/-- A Long trade entered at 220 for 50 shares, awaiting closure. -/
def filledLongTrade : Trade :=
  { symbol := "AAPL"
    direction := some "Long"
    order_status := some "Contingent Order Working"
    trade_status := some "Filled"
    executed_price := some 220
    filled_qty := some 50 }

/-- A stored trade whose executed_price is the (falsy) value 0. -/
def zeroEntryTrade : Trade :=
  { symbol := "AAPL"
    direction := some "Long"
    trade_status := some "Filled"
    executed_price := some 0 }

/-- A Working Long trade about to be evaluated for entry. -/
def workingTrade : Trade :=
  { symbol := "AAPL"
    direction := some "Long"
    order_status := some "Working"
    trade_status := some "Pending"
    calculated_quantity := some 50 }

/-- A trade whose exit order is outstanding (contingent order submitted). -/
def contingentTrade : Trade :=
  { symbol := "AAPL"
    direction := some "Long"
    order_status := some "Contingent Order Submitted"
    trade_status := some "Filled" }

/-- Executor state tracking broker order 7 for `contingentTrade` and order 8
for `workingTrade`. -/
def execState : OrderExecState :=
  { active_orders := [(7, some contingentTrade), (8, some workingTrade)]
    has_trade_manager := true }

example : ratchet_states ratchetTrade [100, 98, 105, 103] =
    [some 100, some 100, some 105, some 105] := by
  norm_num [ratchet_states, ratchet_step, should_update_stop, update_trailing_stop,
    ratchetTrade, Trade.dir]

example : calculate_dynamic_stop longStopTrade (some [98]) = some 98 := by
  norm_num [calculate_dynamic_stop, longStopTrade, RuleSlot.truthy, calculate_sma]

example : (should_trigger_stop longStopTrade 96 (some [98])).2.1 = some 98 := by
  norm_num [should_trigger_stop, calculate_dynamic_stop, longStopTrade,
    RuleSlot.truthy, calculate_sma, determine_active_stop, Trade.dir]

example : (should_trigger_stop shortStopTrade 104 (some [102])).2.1 = some 102 := by
  norm_num [should_trigger_stop, calculate_dynamic_stop, shortStopTrade,
    RuleSlot.truthy, calculate_sma, determine_active_stop, Trade.dir]
  decide

example : evaluate_trailing_stop_step trailingPassTrade 95 (some [100, 105, 95]) =
    ({ trailingPassTrade with current_trailing_stop := some 100 }, true, some 100) := by
  norm_num [evaluate_trailing_stop_step, is_trailing_stop_active, trailingPassTrade,
    RuleSlot.isNotNone, RuleSlot.truthy, should_update_trailing_stop,
    calculate_trailing_stop, calculate_sma, should_update_stop, update_trailing_stop,
    should_trigger_trailing_stop, Trade.dir]

example : (should_trigger_trailing_stop trailingPassTrade 95).1 = false := by
  norm_num [should_trigger_trailing_stop, trailingPassTrade, Trade.dir]

example : code_triggered_targets twoTargetTrade 166 = [160] := by
  norm_num [code_triggered_targets, should_trigger_take_profit, twoTargetTrade, Trade.dir]

example : spec_triggered_targets twoTargetTrade 166 = [160, 165] := by
  norm_num [spec_triggered_targets, twoTargetTrade, Trade.dir, List.filter]

example : should_trigger_take_profit twoTargetTrade 163 = (true, some 160) := by
  norm_num [should_trigger_take_profit, twoTargetTrade, Trade.dir]

example :
    (get_fresh_trade_config (mark_trade_closed [filledLongTrade] "AAPL" 200 50)
      "AAPL").map Trade.realized_pnl = some (some (-1000)) := by
  norm_num [get_fresh_trade_config, mark_trade_closed, mark_trade_closed_trade,
    update_trade_in_file, replace_first_trade, filledLongTrade, Trade.dir,
    List.find?, List.any]

example :
    (get_fresh_trade_config (mark_trade_closed [zeroEntryTrade] "AAPL" 200 50)
      "AAPL").map Trade.realized_pnl = some none := by
  norm_num [get_fresh_trade_config, mark_trade_closed, mark_trade_closed_trade,
    update_trade_in_file, replace_first_trade, zeroEntryTrade, Trade.dir,
    List.find?, List.any]

/-- The circuit breaker as constructed with failure_threshold=5 and recovery
timeout `rt` (the TradeManager's broker breaker uses rt = 60). -/
def cbInit (rt : ℚ) : CircuitBreaker :=
  { failure_threshold := 5, recovery_timeout := rt }

/-- The breaker after five consecutive failures at times t1..t5. -/
def cb5of (rt t1 t2 t3 t4 t5 : ℚ) : CircuitBreaker :=
  record_failure (record_failure (record_failure (record_failure
    (record_failure (cbInit rt) t1) t2) t3) t4) t5

/-- A HALF_OPEN breaker with failure count 0, reached through the public API:
five failures, a record_success while OPEN (which resets the count but does
not close the circuit), then a can_execute probe after the timeout. -/
def halfOpenZeroCount : CircuitBreaker :=
  (can_execute (record_success (cb5of 60 1 2 3 4 5)) 100).2

/-! ## Helper lemmas -/

theorem should_update_stop_long (t : Trade) (h : t.dir = "Long") (v c : ℚ) :
    should_update_stop t (some v) c = decide (v < c) := by
  simp [should_update_stop, h]

theorem should_update_stop_short (t : Trade) (h : t.dir = "Short") (v c : ℚ) :
    should_update_stop t (some v) c = decide (c < v) := by
  have hne : ("Short" : String) ≠ "Long" := by decide
  simp [should_update_stop, h, hne]

theorem should_update_trailing_snd_isSome (t : Trade) (price : ℚ)
    (w : Option (List ℚ)) (h : (should_update_trailing_stop t price w).1 = true) :
    ((should_update_trailing_stop t price w).2).isSome = true := by
  cases htr : t.trailing_rule0.truthy with
  | none => simp [should_update_trailing_stop, htr] at h
  | some rule =>
    cases w with
    | none => simp [should_update_trailing_stop, htr] at h
    | some win =>
      by_cases hlen : win = [] ∨ win.length < rule.lookback.getD 20
      · simp [should_update_trailing_stop, htr, hlen] at h
      · cases hc : calculate_trailing_stop t win with
        | none => simp [should_update_trailing_stop, htr, hlen, hc] at h
        | some ns => simp [should_update_trailing_stop, htr, hlen, hc]

/-! ## Claim theorems -/

/-- C3: for every trade with a trailing-stop rule and every sequence of freshly
computed candidate trailing stops, the stored current_trailing_stop is
replaced by a candidate only when the candidate is strictly more favorable
(strictly greater for Long, strictly less for Short), so the stored value
never loosens (it equals max/min of old value and candidate); for a Long
position the candidate sequence [100, 98, 105, 103] yields the stored
sequence [100, 100, 105, 105]. -/
theorem c3_trailing_ratchet_never_loosens :
    (∀ (t : Trade) (v c : ℚ), t.dir = "Long" → t.current_trailing_stop = some v →
      (should_update_stop t (some v) c = true ↔ v < c) ∧
      (ratchet_step t c).current_trailing_stop = some (max v c)) ∧
    (∀ (t : Trade) (v c : ℚ), t.dir = "Short" → t.current_trailing_stop = some v →
      (should_update_stop t (some v) c = true ↔ c < v) ∧
      (ratchet_step t c).current_trailing_stop = some (min v c)) ∧
    ratchet_states ratchetTrade [100, 98, 105, 103] =
      [some 100, some 100, some 105, some 105] := by
  refine ⟨?_, ?_, ?_⟩
  · intro t v c hd hc
    have hs := should_update_stop_long t hd v c
    refine ⟨by simp [hs], ?_⟩
    by_cases h : v < c
    · simp [ratchet_step, hc, hs, h, update_trailing_stop, max_eq_right h.le]
    · simp [ratchet_step, hc, hs, h, max_eq_left (not_lt.mp h)]
  · intro t v c hd hc
    have hs := should_update_stop_short t hd v c
    refine ⟨by simp [hs], ?_⟩
    by_cases h : c < v
    · simp [ratchet_step, hc, hs, h, update_trailing_stop, min_eq_right h.le]
    · simp [ratchet_step, hc, hs, h, min_eq_left (not_lt.mp h)]
  · norm_num [ratchet_states, ratchet_step, should_update_stop, update_trailing_stop,
      ratchetTrade, Trade.dir]

/-- C3 witness: the Long and Short clauses of the ratchet theorem evaluated at a
concrete trade with stored stop 100 and candidate 98. -/
theorem c3_witness :
    trailingPassTrade.dir = "Long" ∧
    trailingPassTrade.current_trailing_stop = some 90 ∧
    (should_update_stop trailingPassTrade (some 90) 98 = true ↔ (90 : ℚ) < 98) ∧
    (ratchet_step trailingPassTrade 98).current_trailing_stop = some (max 90 98) := by
  have h := c3_trailing_ratchet_never_loosens.1 trailingPassTrade 90 98 rfl rfl
  exact ⟨rfl, rfl, h.1, h.2⟩

/-- C4: when the stop-loss evaluator runs for a trade with both a static
initial stop and a computable dynamic stop, the active stop evaluated is
max(static, dynamic) for Long and min for Short; with only one of the two,
that one is active; Long 95/98 gives 98, Short 105/102 gives 102. -/
theorem c4_active_stop_selection :
    (∀ (t : Trade) (s d : ℚ), t.dir = "Long" →
      determine_active_stop t (some s) (some d) = some (max s d)) ∧
    (∀ (t : Trade) (s d : ℚ), t.dir = "Short" →
      determine_active_stop t (some s) (some d) = some (min s d)) ∧
    (∀ (t : Trade) (s : ℚ), determine_active_stop t (some s) none = some s) ∧
    (∀ (t : Trade) (d : ℚ), determine_active_stop t none (some d) = some d) ∧
    (∀ (t : Trade) (price : ℚ) (w : Option (List ℚ)) (s d : ℚ),
      t.initial_stop_price = some s → calculate_dynamic_stop t w = some d →
      (t.trailing_rule0.truthy).isSome = true →
      (should_trigger_stop t price w).2.1 =
        determine_active_stop t (some s) (some d)) ∧
    determine_active_stop longStopTrade (some 95) (some 98) = some 98 ∧
    determine_active_stop shortStopTrade (some 105) (some 102) = some 102 := by
  have hne : ("Short" : String) ≠ "Long" := by decide
  refine ⟨?_, ?_, ?_, ?_, ?_, ?_, ?_⟩
  · intro t s d hd
    simp [determine_active_stop, hd]
  · intro t s d hd
    simp [determine_active_stop, hd, hne]
  · intro t s
    simp [determine_active_stop]
  · intro t d
    simp [determine_active_stop]
  · intro t price w s d hs hdyn htr
    simp [should_trigger_stop, hs, hdyn, htr]
  · have h : determine_active_stop longStopTrade (some 95) (some 98) =
        some (max (95 : ℚ) 98) := by
      simp [determine_active_stop, longStopTrade, Trade.dir]
    rw [h, max_eq_right (by norm_num : (95 : ℚ) ≤ 98)]
  · have h : determine_active_stop shortStopTrade (some 105) (some 102) =
        some (min (105 : ℚ) 102) := by
      simp [determine_active_stop, shortStopTrade, Trade.dir, hne]
    rw [h, min_eq_right (by norm_num : (102 : ℚ) ≤ 105)]

/-- C4 witness: with the SMA(1) rule on the window [98] the dynamic stop is 98
and the trigger evaluates against max(95, 98). -/
theorem c4_witness :
    longStopTrade.initial_stop_price = some 95 ∧
    calculate_dynamic_stop longStopTrade (some [98]) = some 98 ∧
    (longStopTrade.trailing_rule0.truthy).isSome = true ∧
    (should_trigger_stop longStopTrade 96 (some [98])).2.1 =
      determine_active_stop longStopTrade (some 95) (some 98) := by
  have hdyn : calculate_dynamic_stop longStopTrade (some [98]) = some 98 := by
    norm_num [calculate_dynamic_stop, longStopTrade, RuleSlot.truthy, calculate_sma]
  exact ⟨rfl, hdyn, rfl,
    c4_active_stop_selection.2.2.2.2.1 longStopTrade 96 (some [98]) 95 98 rfl hdyn rfl⟩

/-- C5: for a CircuitBreaker with failure_threshold=5, five consecutive
record_failure calls move CLOSED to OPEN and can_execute is false while the
recovery timeout has not elapsed; once more than recovery_timeout has
elapsed since the last failure, can_execute returns true and the state
becomes HALF_OPEN, and one record_success then yields CLOSED. -/
theorem c5_circuit_breaker_lifecycle (rt t1 t2 t3 t4 t5 now1 now2 : ℚ)
    (h1 : now1 - t5 ≤ rt) (h2 : t5 ≠ 0) (h3 : rt < now2 - t5) :
    (cbInit rt).state = "CLOSED" ∧
    (cb5of rt t1 t2 t3 t4 t5).state = "OPEN" ∧
    (can_execute (cb5of rt t1 t2 t3 t4 t5) now1).1 = false ∧
    (can_execute (cb5of rt t1 t2 t3 t4 t5) now2).1 = true ∧
    ((can_execute (cb5of rt t1 t2 t3 t4 t5) now2).2).state = "HALF_OPEN" ∧
    (record_success ((can_execute (cb5of rt t1 t2 t3 t4 t5) now2).2)).state
      = "CLOSED" := by
  have hcb : cb5of rt t1 t2 t3 t4 t5 =
      { failure_threshold := 5, recovery_timeout := rt, failure_count := 5,
        last_failure_time := some t5, state := "OPEN" } := by
    norm_num [cb5of, cbInit, record_failure]
  have hno : ¬(now1 - t5 > rt) := not_lt.mpr h1
  refine ⟨rfl, ?_, ?_, ?_, ?_, ?_⟩
  · rw [hcb]
  · rw [hcb]
    simp [can_execute, hno]
  · rw [hcb]
    simp [can_execute, h2, h3]
  · rw [hcb]
    simp [can_execute, h2, h3]
  · rw [hcb]
    simp [can_execute, h2, h3, record_success]

/-- C5 witness: the lifecycle theorem at rt=60, failures at times 1..5,
probes at times 30 (too early) and 100 (past the timeout). -/
theorem c5_witness :
    ((30 : ℚ) - 5 ≤ 60 ∧ (5 : ℚ) ≠ 0 ∧ (60 : ℚ) < 100 - 5) ∧
    ((cb5of 60 1 2 3 4 5).state = "OPEN" ∧
     (can_execute (cb5of 60 1 2 3 4 5) 30).1 = false ∧
     (can_execute (cb5of 60 1 2 3 4 5) 100).1 = true ∧
     ((can_execute (cb5of 60 1 2 3 4 5) 100).2).state = "HALF_OPEN" ∧
     (record_success ((can_execute (cb5of 60 1 2 3 4 5) 100).2)).state
       = "CLOSED") := by
  have h := c5_circuit_breaker_lifecycle 60 1 2 3 4 5 30 100
    (by norm_num) (by norm_num) (by norm_num)
  exact ⟨⟨by norm_num, by norm_num, by norm_num⟩,
    h.2.1, h.2.2.1, h.2.2.2.1, h.2.2.2.2.1, h.2.2.2.2.2⟩

/-- C6 counterexample: a HALF_OPEN breaker reached via the public API (five
failures, record_success while OPEN, timed-out probe) has failure count 0;
a single record_failure leaves it HALF_OPEN instead of moving it to OPEN. -/
theorem c6_counterexample :
    halfOpenZeroCount.state = "HALF_OPEN" ∧
    halfOpenZeroCount.failure_count = 0 ∧
    (record_failure halfOpenZeroCount 101).state = "HALF_OPEN" ∧
    "HALF_OPEN" ≠ "OPEN" := by
  have hcb : cb5of 60 1 2 3 4 5 =
      { failure_threshold := 5, recovery_timeout := 60, failure_count := 5,
        last_failure_time := some 5, state := "OPEN" } := by
    norm_num [cb5of, cbInit, record_failure]
  have hh : halfOpenZeroCount =
      { failure_threshold := 5, recovery_timeout := 60, failure_count := 0,
        last_failure_time := some 5, state := "HALF_OPEN" } := by
    have e1 : ("OPEN" : String) ≠ "HALF_OPEN" := by decide
    have e2 : ("OPEN" : String) ≠ "CLOSED" := by decide
    rw [halfOpenZeroCount, hcb]
    norm_num [record_success, can_execute, e1, e2]
  refine ⟨by rw [hh], by rw [hh], ?_, by decide⟩
  rw [hh]
  norm_num [record_failure]

/-- C6 (amended): in HALF_OPEN, record_failure moves the breaker to OPEN
exactly when the incremented failure count reaches failure_threshold; since
the OPEN→HALF_OPEN transition preserves the failure count, one failure does
reopen along the standard path (threshold failures, timeout, probe) where no
record_success intervened while OPEN. -/
theorem c6_half_open_failure_reopens :
    (∀ (cb : CircuitBreaker) (now : ℚ), cb.state = "HALF_OPEN" →
      cb.failure_threshold ≤ cb.failure_count + 1 →
      (record_failure cb now).state = "OPEN") ∧
    (∀ (rt t1 t2 t3 t4 t5 now t6 : ℚ), t5 ≠ 0 → rt < now - t5 →
      (record_failure ((can_execute (cb5of rt t1 t2 t3 t4 t5) now).2) t6).state
        = "OPEN") := by
  constructor
  · intro cb now _ hth
    simp [record_failure, hth]
  · intro rt t1 t2 t3 t4 t5 now t6 h2 h3
    have hcb : cb5of rt t1 t2 t3 t4 t5 =
        { failure_threshold := 5, recovery_timeout := rt, failure_count := 5,
          last_failure_time := some t5, state := "OPEN" } := by
      norm_num [cb5of, cbInit, record_failure]
    rw [hcb]
    simp [can_execute, h2, h3, record_failure]

/-- C6 witness: the amended theorem applied to a HALF_OPEN breaker with count 5
(threshold 5), and to the standard path with timeout 60 and a probe at 100. -/
theorem c6_witness :
    (({ failure_threshold := 5, failure_count := 5,
        state := "HALF_OPEN" } : CircuitBreaker).state = "HALF_OPEN" ∧
     (record_failure
       ({ failure_threshold := 5, failure_count := 5,
          state := "HALF_OPEN" } : CircuitBreaker) 7).state = "OPEN") ∧
    (record_failure ((can_execute (cb5of 60 1 2 3 4 5) 100).2) 101).state
      = "OPEN" := by
  refine ⟨⟨rfl, ?_⟩, ?_⟩
  · exact c6_half_open_failure_reopens.1
      { failure_threshold := 5, failure_count := 5, state := "HALF_OPEN" } 7
      rfl (by norm_num)
  · exact c6_half_open_failure_reopens.2 60 1 2 3 4 5 100 101
      (by norm_num) (by norm_num)

/-- C2 counterexample: for a stored trade whose executed_price is 0,
mark_trade_closed leaves realized_pnl unset, whereas the claimed formula
(exit − entry) · qty = (200 − 0) · 50 prescribes a recorded value. -/
theorem c2_counterexample :
    get_fresh_trade_config [zeroEntryTrade] "AAPL" = some zeroEntryTrade ∧
    zeroEntryTrade.executed_price = some 0 ∧
    (get_fresh_trade_config (mark_trade_closed [zeroEntryTrade] "AAPL" 200 50)
      "AAPL").map Trade.realized_pnl = some none ∧
    (none : Option ℚ) ≠ some ((200 - 0) * 50) := by
  refine ⟨rfl, rfl, ?_, ?_⟩
  · norm_num [get_fresh_trade_config, mark_trade_closed, mark_trade_closed_trade,
      update_trade_in_file, replace_first_trade, zeroEntryTrade, Trade.dir,
      List.find?, List.any]
  · intro h
    exact Option.noConfusion h

/-- C2 (amended): for every stored trade with a positive executed_price,
mark_trade_closed sets order_status Inactive and trade_status Closed,
records exit_price and exit_qty, computes realized_pnl as
(exit−entry)·qty for Long and (entry−exit)·qty for Short, and persists the
updated trade immediately; closing a Long entered at 220 with qty 50 at 200
yields realized_pnl = −1000. When executed_price is missing or not
positive, the statuses and exit facts are still set but realized_pnl is
left unset. -/
theorem c2_mark_trade_closed :
    (∀ (store : TradeStore) (t : Trade) (e xp xq : ℚ),
      get_fresh_trade_config store t.symbol = some t →
      t.executed_price = some e → 0 < e →
      mark_trade_closed store t.symbol xp xq =
        update_trade_in_file store t.symbol (mark_trade_closed_trade t xp xq) ∧
      (mark_trade_closed_trade t xp xq).order_status = some "Inactive" ∧
      (mark_trade_closed_trade t xp xq).trade_status = some "Closed" ∧
      (mark_trade_closed_trade t xp xq).exit_price = some xp ∧
      (mark_trade_closed_trade t xp xq).exit_qty = some xq ∧
      (mark_trade_closed_trade t xp xq).realized_pnl =
        some (if t.dir = "Long" then (xp - e) * xq else (e - xp) * xq)) ∧
    (get_fresh_trade_config (mark_trade_closed [filledLongTrade] "AAPL" 200 50)
      "AAPL").map Trade.realized_pnl = some (some (-1000)) := by
  constructor
  · intro store t e xp xq hfind he hpos
    refine ⟨?_, ?_, ?_, ?_, ?_, ?_⟩
    · simp [mark_trade_closed, hfind]
    · simp [mark_trade_closed_trade, he, hpos]
    · simp [mark_trade_closed_trade, he, hpos]
    · simp [mark_trade_closed_trade, he, hpos]
    · simp [mark_trade_closed_trade, he, hpos]
    · simp [mark_trade_closed_trade, he, hpos, Trade.dir]
  · norm_num [get_fresh_trade_config, mark_trade_closed, mark_trade_closed_trade,
      update_trade_in_file, replace_first_trade, filledLongTrade, Trade.dir,
      List.find?, List.any]

/-- C2 witness: the amended theorem at the stored Long trade entered at 220,
closed at 200 for 50 shares. -/
theorem c2_witness :
    get_fresh_trade_config [filledLongTrade] "AAPL" = some filledLongTrade ∧
    filledLongTrade.executed_price = some 220 ∧ (0 : ℚ) < 220 ∧
    (mark_trade_closed_trade filledLongTrade 200 50).realized_pnl =
      some (if filledLongTrade.dir = "Long"
            then ((200 : ℚ) - 220) * 50 else (220 - 200) * 50) := by
  have h := (c2_mark_trade_closed.1 [filledLongTrade] filledLongTrade 220 200 50
    rfl rfl (by norm_num)).2.2.2.2.2
  exact ⟨rfl, rfl, by norm_num, h⟩

/-- C7 counterexample: for a filled Long trade with stored trailing stop 90,
SMA(2) rule and window [100, 105, 95], the tick at price 95 updates the
ratchet to the fresh candidate 100 and the same pass's trigger fires
against 100 (the freshly computed candidate), while the decision against
the pre-update stored value 90 is negative — the same pass is NOT evaluated
against the old stored value. -/
theorem c7_counterexample :
    evaluate_trailing_stop_step trailingPassTrade 95 (some [100, 105, 95]) =
      ({ trailingPassTrade with current_trailing_stop := some 100 },
       true, some 100) ∧
    (should_update_trailing_stop trailingPassTrade 95 (some [100, 105, 95])).2 =
      some 100 ∧
    should_trigger_trailing_stop trailingPassTrade 95 = (false, some 90) := by
  refine ⟨?_, ?_, ?_⟩
  · norm_num [evaluate_trailing_stop_step, is_trailing_stop_active, trailingPassTrade,
      RuleSlot.isNotNone, RuleSlot.truthy, should_update_trailing_stop,
      calculate_trailing_stop, calculate_sma, should_update_stop,
      update_trailing_stop, should_trigger_trailing_stop, Trade.dir]
  · norm_num [should_update_trailing_stop, trailingPassTrade, RuleSlot.truthy,
      calculate_trailing_stop, calculate_sma, should_update_stop, Trade.dir]
  · norm_num [should_trigger_trailing_stop, trailingPassTrade, Trade.dir]

/-- C7 (amended): update and trigger are two separate calls made
update-first: within one tick evaluation of a trade with an active trailing
stop, when the ratchet update occurs the same pass's trigger is evaluated
against the freshly updated stored value — which equals the freshly
computed candidate — and only when no update occurs is it evaluated against
the old stored value. -/
theorem c7_update_then_trigger :
    ∀ (t : Trade) (price : ℚ) (w : Option (List ℚ)),
      is_trailing_stop_active t = true →
      ((should_update_trailing_stop t price w).1 = true →
        ((should_update_trailing_stop t price w).2).isSome = true) ∧
      ((should_update_trailing_stop t price w).1 = false →
        evaluate_trailing_stop_step t price w =
          (t, (should_trigger_trailing_stop t price).1,
           (should_trigger_trailing_stop t price).2)) ∧
      (∀ ns : ℚ, (should_update_trailing_stop t price w).1 = true →
        (should_update_trailing_stop t price w).2 = some ns →
        evaluate_trailing_stop_step t price w =
          (update_trailing_stop t ns,
           (should_trigger_trailing_stop (update_trailing_stop t ns) price).1,
           (should_trigger_trailing_stop (update_trailing_stop t ns) price).2) ∧
        ((t.dir = "Long" ∨ t.dir = "Short") →
          (should_trigger_trailing_stop (update_trailing_stop t ns) price).2
            = some ns)) := by
  intro t price w hact
  refine ⟨should_update_trailing_snd_isSome t price w, ?_, ?_⟩
  · intro hfalse
    simp [evaluate_trailing_stop_step, hact, hfalse]
  · intro ns htrue hsnd
    have hne : ("Short" : String) ≠ "Long" := by decide
    constructor
    · simp [evaluate_trailing_stop_step, hact, htrue, hsnd]
    · rintro (hd | hd) <;>
        simp only [Trade.dir] at hd <;>
        simp [should_trigger_trailing_stop, update_trailing_stop, Trade.dir, hd, hne]

/-- C7 witness: the amended theorem at the counterexample fixture, where the
update occurs with candidate 100 and the same-pass trigger compares against
100. -/
theorem c7_witness :
    is_trailing_stop_active trailingPassTrade = true ∧
    (should_update_trailing_stop trailingPassTrade 95 (some [100, 105, 95])).1
      = true ∧
    evaluate_trailing_stop_step trailingPassTrade 95 (some [100, 105, 95]) =
      (update_trailing_stop trailingPassTrade 100,
       (should_trigger_trailing_stop
         (update_trailing_stop trailingPassTrade 100) 95).1,
       (should_trigger_trailing_stop
         (update_trailing_stop trailingPassTrade 100) 95).2) ∧
    (should_trigger_trailing_stop
      (update_trailing_stop trailingPassTrade 100) 95).2 = some 100 := by
  have htrue :
      (should_update_trailing_stop trailingPassTrade 95 (some [100, 105, 95])).1
        = true := by
    norm_num [should_update_trailing_stop, trailingPassTrade, RuleSlot.truthy,
      calculate_trailing_stop, calculate_sma, should_update_stop, Trade.dir]
  have hsnd :
      (should_update_trailing_stop trailingPassTrade 95 (some [100, 105, 95])).2
        = some 100 := by
    norm_num [should_update_trailing_stop, trailingPassTrade, RuleSlot.truthy,
      calculate_trailing_stop, calculate_sma, should_update_stop, Trade.dir]
  have h := (c7_update_then_trigger trailingPassTrade 95 (some [100, 105, 95])
    rfl).2.2 100 htrue hsnd
  exact ⟨rfl, htrue, h.1, h.2 (Or.inl rfl)⟩

/-- C8 counterexample: with two Long targets 160 (primary) and 165, evaluating
at price 166 the code triggers and reports only the primary 160 target,
while the claimed behavior (set of all triggered targets, primary-first)
would be [160, 165]. -/
theorem c8_counterexample :
    code_triggered_targets twoTargetTrade 166 = [160] ∧
    spec_triggered_targets twoTargetTrade 166 = [160, 165] ∧
    code_triggered_targets twoTargetTrade 166 ≠
      spec_triggered_targets twoTargetTrade 166 := by
  have h1 : code_triggered_targets twoTargetTrade 166 = [160] := by
    norm_num [code_triggered_targets, should_trigger_take_profit, twoTargetTrade,
      Trade.dir]
  have h2 : spec_triggered_targets twoTargetTrade 166 = [160, 165] := by
    norm_num [spec_triggered_targets, twoTargetTrade, Trade.dir, List.filter]
  refine ⟨h1, h2, ?_⟩
  rw [h1, h2]
  intro h
  have hlen := congrArg List.length h
  simp at hlen

/-- C8 (amended): the take-profit evaluator evaluates only the first
take-profit rule — its verdict is unchanged when all later rules are
dropped — and reports that single target; with Long targets 160 and 165,
price 163 triggers reporting target 160, and price 166 also triggers
reporting only target 160 (not both). -/
theorem c8_first_rule_only :
    (∀ (t : Trade) (price : ℚ),
      should_trigger_take_profit t price =
        should_trigger_take_profit
          { t with take_profit_rules := t.take_profit_rules.take 1 } price) ∧
    should_trigger_take_profit twoTargetTrade 163 = (true, some 160) ∧
    should_trigger_take_profit twoTargetTrade 166 = (true, some 160) ∧
    should_trigger_take_profit twoTargetTrade 159 = (false, some 160) := by
  refine ⟨?_, ?_, ?_, ?_⟩
  · intro t price
    cases h : t.take_profit_rules with
    | nil => simp [should_trigger_take_profit, h]
    | cons r rest => simp [should_trigger_take_profit, h, Trade.dir]
  · norm_num [should_trigger_take_profit, twoTargetTrade, Trade.dir]
  · norm_num [should_trigger_take_profit, twoTargetTrade, Trade.dir]
  · norm_num [should_trigger_take_profit, twoTargetTrade, Trade.dir]

/-- C1: for every fill event (status "Filled") for a broker order tracked in
the active_orders map with a trade and a wired trade manager, the handler
removes the tracking entry and routes to mark_trade_closed exactly when the
trade's order_status is "Contingent Order Submitted", else to
mark_trade_filled; an untracked fill is dropped with no state change; a
tracked entry whose trade value is None still has its entry removed with
nothing routed; and an exception while processing a fill is caught
(reported, not propagated) so the dispatch handler always returns. -/
theorem c1_fill_dispatch :
    (∀ (st : OrderExecState) (ev : FillEvent) (tr : Trade),
      lookup_order st.active_orders ev.orderId = some (some tr) →
      st.has_trade_manager = true → ev.status = "Filled" →
      on_order_status false st ev =
        ({ st with active_orders := remove_order st.active_orders ev.orderId },
         some (if tr.order_status = some "Contingent Order Submitted" then
                 RouteCall.markClosed tr.symbol ev.avgFillPrice ev.filled
               else RouteCall.markFilled tr.symbol ev.avgFillPrice ev.filled),
         false)) ∧
    (∀ (raises : Bool) (st : OrderExecState) (ev : FillEvent),
      lookup_order st.active_orders ev.orderId = none →
      on_order_status raises st ev = (st, none, false)) ∧
    (∀ (st : OrderExecState) (ev : FillEvent) (tr : Trade),
      lookup_order st.active_orders ev.orderId = some (some tr) →
      st.has_trade_manager = true → ev.status = "Filled" →
      on_order_status true st ev = (st, none, true)) ∧
    (∀ (raises : Bool) (st : OrderExecState) (ev : FillEvent),
      lookup_order st.active_orders ev.orderId = some none → ev.status = "Filled" →
      on_order_status raises st ev =
        ({ st with active_orders := remove_order st.active_orders ev.orderId },
         none, false)) := by
  refine ⟨?_, ?_, ?_, ?_⟩
  · intro st ev tr hlk htm hst
    simp [on_order_status, hlk, hst, htm]
  · intro raises st ev hlk
    simp [on_order_status, hlk]
  · intro st ev tr hlk htm hst
    simp [on_order_status, hlk, hst, htm]
  · intro raises st ev hlk hst
    simp [on_order_status, hlk, hst]

/-- C1 witness: the dispatch theorem at a state tracking broker order 7 for a
trade whose order_status is "Contingent Order Submitted": the fill at 200
for 50 shares removes the entry and routes to mark_trade_closed. -/
theorem c1_witness :
    lookup_order execState.active_orders 7 = some (some contingentTrade) ∧
    execState.has_trade_manager = true ∧
    on_order_status false execState ⟨7, "Filled", 200, 50⟩ =
      ({ execState with active_orders := remove_order execState.active_orders 7 },
       some (RouteCall.markClosed "AAPL" 200 50), false) := by
  have h := c1_fill_dispatch.1 execState ⟨7, "Filled", 200, 50⟩ contingentTrade
    rfl rfl rfl
  refine ⟨rfl, rfl, ?_⟩
  rw [h]
  simp [contingentTrade]

/-- C9 counterexample: when entry conditions trigger and the placement call
raises, _evaluate_entry_conditions does not revert the trade's order_status
to its pre-attempt value "Working": the exception escapes and the status
stays "Entry Order Submitted". -/
theorem c9_counterexample :
    workingTrade.order_status = some "Working" ∧
    (evaluate_entry_conditions false true true .raises [workingTrade]
      workingTrade).raised = true ∧
    (evaluate_entry_conditions false true true .raises [workingTrade]
      workingTrade).trade.order_status = some "Entry Order Submitted" ∧
    some "Entry Order Submitted" ≠ some "Working" := by
  refine ⟨rfl, ?_, ?_, by decide⟩
  · simp [evaluate_entry_conditions, workingTrade]
  · simp [evaluate_entry_conditions, workingTrade]

/-- C9 (amended): when entry conditions trigger and the placement call returns
no result, the trade's order_status is reverted to its pre-attempt value,
the reverted trade is persisted, exactly one placement was attempted inside
the call (no retry there), and no exception escapes; when the placement
call itself raises, the exception propagates out of the method and the
already-persisted "Entry Order Submitted" status is not reverted;
place_market_order itself returns None on any internal failure and passes
the trade through unmodified. -/
theorem c9_placement_failure_handling :
    (∀ (store : TradeStore) (t : Trade) (os : String),
      t.trade_status ≠ some "Filled" → t.order_status = some os →
      (evaluate_entry_conditions false true true .noResult store t).trade.order_status
        = some os ∧
      (evaluate_entry_conditions false true true .noResult store t).placements = 1 ∧
      (evaluate_entry_conditions false true true .noResult store t).raised = false ∧
      (evaluate_entry_conditions false true true .noResult store t).store =
        update_trade_in_file
          (update_trade_in_file store t.symbol
            { t with order_status := some "Entry Order Submitted" })
          t.symbol
          (evaluate_entry_conditions false true true .noResult store t).trade) ∧
    (∀ (store : TradeStore) (t : Trade),
      t.trade_status ≠ some "Filled" →
      (evaluate_entry_conditions false true true .raises store t).raised = true ∧
      (evaluate_entry_conditions false true true .raises store t).placements = 1 ∧
      (evaluate_entry_conditions false true true .raises store t).trade.order_status
        = some "Entry Order Submitted") ∧
    (∀ (f : PMOFailure) (topt : Option Trade),
      place_market_order (some f) topt = (none, topt)) := by
  refine ⟨?_, ?_, ?_⟩
  · intro store t os hnf hos
    refine ⟨?_, ?_, ?_, ?_⟩ <;>
      simp [evaluate_entry_conditions, hnf, hos]
  · intro store t hnf
    refine ⟨?_, ?_, ?_⟩ <;> simp [evaluate_entry_conditions, hnf]
  · intro f topt
    simp [place_market_order]

/-- C9 witness: the amended theorem for the Working trade: a falsy placement
result reverts to "Working" with one placement attempt and no escaping
exception, and a failing place_market_order returns None leaving the trade
untouched. -/
theorem c9_witness :
    workingTrade.trade_status ≠ some "Filled" ∧
    workingTrade.order_status = some "Working" ∧
    (evaluate_entry_conditions false true true .noResult [workingTrade]
      workingTrade).trade.order_status = some "Working" ∧
    (evaluate_entry_conditions false true true .noResult [workingTrade]
      workingTrade).placements = 1 ∧
    (evaluate_entry_conditions false true true .noResult [workingTrade]
      workingTrade).raised = false ∧
    place_market_order (some .timeoutError) (some workingTrade) =
      (none, some workingTrade) := by
  have h := c9_placement_failure_handling.1 [workingTrade] workingTrade "Working"
    (by decide) rfl
  exact ⟨by decide, rfl, h.1, h.2.1, h.2.2.1,
    c9_placement_failure_handling.2.2 .timeoutError (some workingTrade)⟩

/-- C10: the pipeline wiring raises TypeError before any order reaches the
broker: the entry call site passes keywords qty and side that are not
parameters of place_market_order (and binds neither of its two required
parameters), the exit call sites pass qty and side to submit_exit_order and
omit its required price parameter, so CPython keyword binding rejects both
calls; on the entry path the raise leaves the already-persisted
"Entry Order Submitted" status in place (not reverted), and the
surrounding execute_with_retry wrapper swallows the error, returning None
instead of propagating. -/
theorem c10_wiring_type_errors :
    bind_kwargs place_market_order_params entry_call_kwargs =
      CallCheck.typeError "unexpected keyword argument" ∧
    (∀ p ∈ place_market_order_params, p.name ≠ "qty" ∧ p.name ≠ "side") ∧
    bind_kwargs submit_exit_order_params exit_call_kwargs =
      CallCheck.typeError "unexpected keyword argument" ∧
    (∃ p ∈ submit_exit_order_params, p.name = "price" ∧ p.hasDefault = false) ∧
    "price" ∉ exit_call_kwargs ∧
    (∀ (store : TradeStore) (t : Trade),
      t.trade_status ≠ some "Filled" →
      (evaluate_entry_conditions false true true .raises store t).raised = true ∧
      (evaluate_entry_conditions false true true .raises store t).trade.order_status
        = some "Entry Order Submitted" ∧
      (evaluate_entry_conditions false true true .raises store t).store =
        update_trade_in_file store t.symbol
          { t with order_status := some "Entry Order Submitted" }) ∧
    (∀ (mr : Nat) (e : Nat → String),
      execute_with_retry mr (fun n => (Except.error (e n) : Except String Unit))
        = none) := by
  refine ⟨by decide, by decide, by decide, by decide, by decide, ?_, ?_⟩
  · intro store t hnf
    refine ⟨?_, ?_, ?_⟩ <;> simp [evaluate_entry_conditions, hnf]
  · intro mr e
    have go : ∀ (r a : Nat),
        execute_with_retry_go (fun n => (Except.error (e n) : Except String Unit))
          a r = none := by
      intro r
      induction r with
      | zero => intro a; simp [execute_with_retry_go]
      | succ k ih => intro a; simpa [execute_with_retry_go] using ih (a + 1)
    exact go mr 0

/-- C10 witness: the entry raise at the Working trade leaves the persisted
submitted status in place, and the retry wrapper returns None for an
operation that raises TypeError on every attempt. -/
theorem c10_witness :
    workingTrade.trade_status ≠ some "Filled" ∧
    (evaluate_entry_conditions false true true .raises [workingTrade]
      workingTrade).trade.order_status = some "Entry Order Submitted" ∧
    execute_with_retry 3
      (fun _ => (Except.error "TypeError" : Except String Unit)) = none := by
  have h := (c10_wiring_type_errors.2.2.2.2.2.1 [workingTrade] workingTrade
    (by decide)).2.1
  exact ⟨by decide, h,
    c10_wiring_type_errors.2.2.2.2.2.2 3 (fun _ => "TypeError")⟩

end TradeEngine
